import Mathlib

/-!
Verification of the haptic control loop of acpr-buttplug (src/src/dll_code.rs)
against its specification.

The development shallowly embeds the relevant parts of dll_code.rs:
  - the intensity mapping `hitstop_to_vibe_intensity` (lines 227-232),
  - the `DeviceRemoved` registry-reconciliation handler (lines 143-158),
  - one iteration of the control loop body in `run` (lines 181-224),
  - the per-device dispatch `vibrate_device` (lines 262-278),
  - the hitstun predicate `either_player_in_hitstop` (lines 248-260).
Rust `f64` values are modelled as rationals; the clamp/min/max structure of
every numeric expression is preserved, so order and equality facts transfer.
`Vec::remove` with a panicking out-of-bounds index is modelled with `Option`
(`none` = panic).
-/

namespace AcprButtplug

/-- A connected device as the control loop sees it: an identifier, the
liveness flag returned by `ButtplugClientDevice::connected()`, and whether
`message_attributes().scalar_cmd()` is present. -/
structure Device where
  id : Nat
  connected : Bool
  supportsScalar : Bool
deriving DecidableEq, Repr

/-- One tick's sample of game state: the raw hitstop byte returned by
`get_current_hitstop()` (a `u8`, so 0-255) and the boolean returned by
`either_player_in_hitstop()` (bound to `in_hitstun` in `run`). -/
structure Sample where
  raw_hitstop : Nat
  in_hitstun : Bool
deriving DecidableEq, Repr

/-- Rust's `f64::clamp(lo, hi)` on rationals (for `lo ≤ hi` they agree). -/
def clamp (x lo hi : ℚ) : ℚ := max lo (min x hi)

/-- dll_code.rs lines 227-232: `(hitstop / 28.0).clamp(0.0, 1.0)`. -/
def hitstop_to_vibe_intensity (hitstop : ℚ) : ℚ :=
  clamp (hitstop / 28) 0 1

/-- dll_code.rs lines 205-210: the intensity handed to the dispatcher on an
active tick. The loop first halves the raw byte with integer division
(line 184: `get_current_hitstop() / 2`), maps it, then halves the result
when `!in_hitstun` (a blocked move). -/
def tickIntensity (s : Sample) : ℚ :=
  let i := hitstop_to_vibe_intensity ((s.raw_hitstop / 2 : Nat) : ℚ)
  if s.in_hitstun then i else i / 2

/-- A command issued to one device during a tick's fan-out. -/
inductive Command where
  | start (intensity : ℚ)
  | stop
deriving DecidableEq, Repr

/-- dll_code.rs lines 182-224: one iteration of the control-loop body.
State is the `stopped_vibration` flag (line 181). Returns the new flag and
the list of per-device commands dispatched this tick, in registry order. -/
def tick (stopped_vibration : Bool) (s : Sample) (devices : List Device) :
    Bool × List (Device × Command) :=
  let hitstop := s.raw_hitstop / 2
  if hitstop = 0 then
    if stopped_vibration then (true, [])
    else (true, devices.map (fun d => (d, Command.stop)))
  else
    (false, devices.map (fun d => (d, Command.start (tickIntensity s))))

/-- The value of `stopped_vibration` at loop entry (dll_code.rs line 181). -/
def initialStoppedVibration : Bool := false

/-- Iterate the loop body over a list of samples, collecting each tick's
dispatched command list. -/
def runTicks (stopped_vibration : Bool) (samples : List Sample)
    (devices : List Device) : List (List (Device × Command)) :=
  match samples with
  | [] => []
  | s :: rest =>
    let r := tick stopped_vibration s devices
    r.2 :: runTicks r.1 rest devices

/-- dll_code.rs lines 148-153: indices of devices whose `connected()` is
false, collected in ascending order over the current list. -/
def disconnectedIndices (devices : List Device) : List Nat :=
  (devices.enum.filter (fun p => !p.2.connected)).map Prod.fst

/-- `Vec::remove(idx)`: removes and returns-shifts at `idx`; panics when
`idx` is out of bounds, modelled as `none`. -/
def vecRemove (l : List Device) (i : Nat) : Option (List Device) :=
  if i < l.length then some (l.eraseIdx i) else none

/-- dll_code.rs lines 155-157: apply the pre-collected removal indices one
by one to the shrinking vector. `none` means some `remove` panicked. -/
def applyRemovals (l : List Device) : List Nat → Option (List Device)
  | [] => some l
  | i :: is =>
    match vecRemove l i with
    | some l2 => applyRemovals l2 is
    | none => none

/-- dll_code.rs lines 143-158: the `DeviceRemoved` handler. It scans the
current list for disconnected devices, collecting their indices, then
removes those indices from the vector in order. -/
def handleDeviceRemoved (devices : List Device) : Option (List Device) :=
  applyRemovals devices (disconnectedIndices devices)

/-- Outcome of `vibrate_device` for one device (dll_code.rs lines 262-278):
the vibrate command was sent with the given final speed, or the transport
returned an error that was caught and written to the log, or the device
lacks scalar actuation and only a trace line was emitted. -/
inductive VibrateOutcome where
  | commanded (speed : ℚ)
  | errorLogged (msg : String)
  | noScalarTrace
deriving DecidableEq, Repr

/-- dll_code.rs lines 262-278: `vibrate_device`. `fails d = some msg` means
the underlying `dev.vibrate(..)` call for `d` returns `Err(msg)`; the error
is caught, logged and swallowed (the function returns `()` regardless, here
reified as an outcome value). The final speed sent on success is
`(strength * config.vibration_strength).clamp(0.0, 1.0)` (line 268). -/
def vibrate_device (d : Device) (fails : Device → Option String)
    (strength vibration_strength : ℚ) : VibrateOutcome :=
  if d.supportsScalar then
    match fails d with
    | some msg => VibrateOutcome.errorLogged msg
    | none => VibrateOutcome.commanded (clamp (strength * vibration_strength) 0 1)
  else VibrateOutcome.noScalarTrace

/-- dll_code.rs lines 214-221: the per-tick fan-out over the registry - one
`vibrate_device` call per registered device, each awaited in turn, none of
which can propagate an error. -/
def dispatchTick (devices : List Device) (fails : Device → Option String)
    (strength vibration_strength : ℚ) : List VibrateOutcome :=
  devices.map (fun d => vibrate_device d fails strength vibration_strength)

/-- dll_code.rs lines 248-260, the non-null-pointers path of
`either_player_in_hitstop`: each player's status byte at offset 0xC is
bitwise-ORed with `0b000001` before the non-zero test. -/
def either_player_in_hitstop (p1_status p2_status : Nat) : Bool :=
  decide ((p1_status ||| 1) ≠ 0) || decide ((p2_status ||| 1) ≠ 0)

/-!
Theorems settling the claims.
-/

/-- C1: starting right after a completed stop transition
(`stopped_vibration = true`), the tick sequence with sampled hitstop bytes
`[5, 5, 0, 0, 7]` issues a start fan-out to every registered device on
ticks 1, 2 and 5, exactly one stop fan-out, on tick 3, and no device
commands at all on tick 4 - for every device list and any hitstun flags. -/
theorem c1_state_machine (ds : List Device) (b0 b1 b2 b3 b4 : Bool) :
    ∃ i1 i2 i3,
      runTicks true [⟨5, b0⟩, ⟨5, b1⟩, ⟨0, b2⟩, ⟨0, b3⟩, ⟨7, b4⟩] ds =
        [ds.map (fun d => (d, Command.start i1)),
         ds.map (fun d => (d, Command.start i2)),
         ds.map (fun d => (d, Command.stop)),
         [],
         ds.map (fun d => (d, Command.start i3))] := by
  refine ⟨tickIntensity ⟨5, b0⟩, tickIntensity ⟨5, b1⟩, tickIntensity ⟨7, b4⟩, ?_⟩
  simp [runTicks, tick]

/-- C2 counterexample: a tick that samples hitstop 1 (with hitstop 1 > 0)
does not issue start commands - the loop halves the sampled byte with
integer division, so hitstop 1 becomes 0 and the idle path is taken,
dispatching nothing. -/
theorem c2_counterexample :
    (1 : Nat) > 0 ∧
    tick true ⟨1, true⟩ [⟨0, true, true⟩] = (true, []) := by decide

/-- C2 amended: the start fan-out to every registered device occurs exactly
when the sampled hitstop byte is at least 2 (the loop divides the sample by
2 before the zero test), and the stop fan-out occurs on the first tick
whose sampled hitstop byte is below 2. -/
theorem c2_amended (sv : Bool) (s : Sample) (ds : List Device) :
    tick sv s ds =
      if 2 ≤ s.raw_hitstop then
        (false, ds.map (fun d => (d, Command.start (tickIntensity s))))
      else if sv then (true, [])
      else (true, ds.map (fun d => (d, Command.stop))) := by
  by_cases hle : 2 ≤ s.raw_hitstop
  · have h0 : ¬ s.raw_hitstop / 2 = 0 := by omega
    simp [tick, h0, hle]
  · have h0 : s.raw_hitstop / 2 = 0 := by omega
    simp [tick, h0, hle]

/-- C8 counterexample: on the very first tick, with sampled hitstop 0, the
loop does issue a stop command to a registered device, because
`stopped_vibration` is initialized to `false` (dll_code.rs line 181), not
to the already-stopped (Idle) state the claim asserts. -/
theorem c8_counterexample :
    runTicks initialStoppedVibration [⟨0, true⟩] [⟨0, true, true⟩] =
      [[(⟨0, true, true⟩, Command.stop)]] := by decide

/-- C8 amended: the loop starts with `stopped_vibration = false`, the
Active-equivalent state: the very first tick whose sampled hitstop is 0
issues one stop fan-out to every registered device and only then reaches
the Idle state, so a second consecutive zero tick issues nothing. -/
theorem c8_amended (ds : List Device) (b0 b1 : Bool) :
    runTicks initialStoppedVibration [⟨0, b0⟩, ⟨0, b1⟩] ds =
      [ds.map (fun d => (d, Command.stop)), []] := by
  simp [runTicks, tick, initialStoppedVibration]

/-- C3: evaluation of the `DeviceRemoved` handler at a failing input. With
devices A (id 0, disconnected), B (id 1, disconnected), C (id 2,
connected), the handler collects indices [0, 1], removes index 0 (A), and
then index 1 of the shrunken vector - which is C, the connected device.
The result retains disconnected B and has dropped connected C, violating
the reconciliation contract. -/
theorem c3_wrong_removal :
    handleDeviceRemoved [⟨0, false, true⟩, ⟨1, false, true⟩, ⟨2, true, true⟩] =
      some [⟨1, false, true⟩] ∧
    (⟨1, false, true⟩ : Device).connected = false ∧
    (⟨2, true, true⟩ : Device).connected = true := by decide

/-- C9: evaluation of the `DeviceRemoved` handler at a failing input. With
two devices, both disconnected, the handler collects indices [0, 1];
after removing index 0 the vector has length 1, and `Vec::remove(1)` is
out of bounds - the handler panics (modelled as `none`). -/
theorem c9_out_of_bounds :
    handleDeviceRemoved [⟨0, false, true⟩, ⟨1, false, true⟩] = none := by decide

/-- C4: for every raw input r in [0, 255] the intensity mapping lies in
[0, 1]; it is 0 exactly when r = 0; it is non-decreasing in r up to the
ceiling 28; and it is constantly 1 at or above the ceiling. -/
theorem c4_intensity_mapping (r : Nat) (hr : r ≤ 255) :
    (0 ≤ hitstop_to_vibe_intensity (r : ℚ) ∧ hitstop_to_vibe_intensity (r : ℚ) ≤ 1) ∧
    (hitstop_to_vibe_intensity (r : ℚ) = 0 ↔ r = 0) ∧
    (∀ r2 : Nat, r ≤ r2 → r2 ≤ 28 →
      hitstop_to_vibe_intensity (r : ℚ) ≤ hitstop_to_vibe_intensity (r2 : ℚ)) ∧
    (28 ≤ r → hitstop_to_vibe_intensity (r : ℚ) = 1) := by
  unfold hitstop_to_vibe_intensity clamp
  refine ⟨⟨le_max_left 0 _, max_le (by norm_num) (min_le_right _ _)⟩, ?_, ?_, ?_⟩
  · constructor
    · intro h
      by_contra hne
      have h1 : (1 : ℚ) ≤ (r : ℚ) := by exact_mod_cast Nat.one_le_iff_ne_zero.mpr hne
      have hpos : 0 < min ((r : ℚ) / 28) 1 := lt_min (by positivity) (by norm_num)
      rw [max_eq_right hpos.le] at h
      exact hpos.ne' h
    · intro h
      subst h
      norm_num
  · intro r2 h12 _
    gcongr
  · intro h
    have h28 : (28 : ℚ) ≤ (r : ℚ) := by exact_mod_cast h
    have h1 : (1 : ℚ) ≤ (r : ℚ) / 28 := (one_le_div (by norm_num)).mpr h28
    rw [min_eq_right h1, max_eq_right (by norm_num : (0 : ℚ) ≤ 1)]

/-- C4 witness at r = 7. -/
theorem c4_intensity_mapping_witness :
    (7 : Nat) ≤ 255 ∧
    ((0 ≤ hitstop_to_vibe_intensity ((7 : Nat) : ℚ) ∧
        hitstop_to_vibe_intensity ((7 : Nat) : ℚ) ≤ 1) ∧
     (hitstop_to_vibe_intensity ((7 : Nat) : ℚ) = 0 ↔ (7 : Nat) = 0) ∧
     (∀ r2 : Nat, 7 ≤ r2 → r2 ≤ 28 →
       hitstop_to_vibe_intensity ((7 : Nat) : ℚ) ≤ hitstop_to_vibe_intensity (r2 : ℚ)) ∧
     (28 ≤ 7 → hitstop_to_vibe_intensity ((7 : Nat) : ℚ) = 1)) :=
  ⟨by decide, c4_intensity_mapping 7 (by decide)⟩

/-- The transport-failure environment in which no device call fails. -/
def noFailures : Device → Option String := fun _ => none

/-- C5: on a blocked hit (`in_hitstun = false`) with nonzero loop hitstop,
the intensity handed to the dispatcher is exactly half the base mapped
intensity, and the speed a scalar device then receives is the final clamp
of that halved intensity times `vibration_strength` into [0, 1] - so the
halving happens after the base mapping and before the final clamp. -/
theorem c5_blocked_halving (sv : Bool) (s : Sample) (ds : List Device) (vs : ℚ)
    (hblocked : s.in_hitstun = false) (hnz : s.raw_hitstop / 2 ≠ 0) :
    (tick sv s ds).2 = ds.map (fun d => (d, Command.start
        (hitstop_to_vibe_intensity ((s.raw_hitstop / 2 : Nat) : ℚ) / 2))) ∧
    ∀ d : Device, d.supportsScalar = true →
      vibrate_device d noFailures (tickIntensity s) vs =
        VibrateOutcome.commanded
          (clamp (hitstop_to_vibe_intensity ((s.raw_hitstop / 2 : Nat) : ℚ) / 2 * vs) 0 1) := by
  have hti : tickIntensity s =
      hitstop_to_vibe_intensity ((s.raw_hitstop / 2 : Nat) : ℚ) / 2 := by
    simp [tickIntensity, hblocked]
  constructor
  · simp [tick, hnz, hti]
  · intro d hd
    simp [vibrate_device, noFailures, hd, hti]

/-- C5 witness: sample with raw hitstop 5 and hitstun false, one device,
vibration strength 1. -/
theorem c5_blocked_halving_witness :
    (Sample.mk 5 false).in_hitstun = false ∧ (5 : Nat) / 2 ≠ 0 ∧
    ((tick false ⟨5, false⟩ [⟨0, true, true⟩]).2 =
      [⟨0, true, true⟩].map (fun d => (d, Command.start
        (hitstop_to_vibe_intensity ((5 / 2 : Nat) : ℚ) / 2))) ∧
     ∀ d : Device, d.supportsScalar = true →
       vibrate_device d noFailures (tickIntensity ⟨5, false⟩) 1 =
         VibrateOutcome.commanded
           (clamp (hitstop_to_vibe_intensity ((5 / 2 : Nat) : ℚ) / 2 * 1) 0 1)) :=
  ⟨rfl, by decide, c5_blocked_halving false ⟨5, false⟩ [⟨0, true, true⟩] 1 rfl (by decide)⟩

/-- C6: fan-out error isolation. The tick's dispatch produces exactly one
outcome per registered device; every device's own outcome appears in the
dispatch; a device's outcome depends only on its own call's result, so a
sibling's failure cannot change it; and a failing call's error is caught
and surfaces as a logged outcome value, never as a propagated error. -/
theorem c6_fanout_isolation (ds : List Device) (fails fails2 : Device → Option String)
    (strength vs : ℚ) :
    (dispatchTick ds fails strength vs).length = ds.length ∧
    (∀ d ∈ ds, vibrate_device d fails strength vs ∈ dispatchTick ds fails strength vs) ∧
    (∀ d : Device, fails d = fails2 d →
      vibrate_device d fails strength vs = vibrate_device d fails2 strength vs) ∧
    (∀ d : Device, ∀ msg : String, d.supportsScalar = true → fails d = some msg →
      vibrate_device d fails strength vs = VibrateOutcome.errorLogged msg) := by
  refine ⟨List.length_map _ _, ?_, ?_, ?_⟩
  · intro d hd
    exact List.mem_map_of_mem _ hd
  · intro d h
    simp [vibrate_device, h]
  · intro d msg hd hf
    simp [vibrate_device, hd, hf]

/-- A concrete failure environment in which the device with id 1 always
fails its vibrate call. -/
def failsDevice1 : Device → Option String :=
  fun d => if d.id = 1 then some "transport error" else none

/-- C6 witness: three devices of which the middle one always fails. -/
theorem c6_fanout_isolation_witness :
    (dispatchTick [⟨0, true, true⟩, ⟨1, true, true⟩, ⟨2, true, true⟩]
        failsDevice1 1 1).length =
      ([⟨0, true, true⟩, ⟨1, true, true⟩, ⟨2, true, true⟩] : List Device).length ∧
    (∀ d ∈ ([⟨0, true, true⟩, ⟨1, true, true⟩, ⟨2, true, true⟩] : List Device),
      vibrate_device d failsDevice1 1 1 ∈
        dispatchTick [⟨0, true, true⟩, ⟨1, true, true⟩, ⟨2, true, true⟩] failsDevice1 1 1) ∧
    (∀ d : Device, failsDevice1 d = failsDevice1 d →
      vibrate_device d failsDevice1 1 1 = vibrate_device d failsDevice1 1 1) ∧
    (∀ d : Device, ∀ msg : String, d.supportsScalar = true → failsDevice1 d = some msg →
      vibrate_device d failsDevice1 1 1 = VibrateOutcome.errorLogged msg) :=
  c6_fanout_isolation [⟨0, true, true⟩, ⟨1, true, true⟩, ⟨2, true, true⟩]
    failsDevice1 failsDevice1 1 1

/-- C10: whatever the two status bytes read from memory are, the bitwise OR
with `0b000001` makes each non-zero test succeed, so
`either_player_in_hitstop` returns true whenever both player pointers are
non-null; consequently the loop's `in_hitstun` flag is true and the
blocked-hit halving branch is never taken: the dispatched intensity is the
unattenuated base mapping of the halved hitstop byte. -/
theorem c10_attenuation_unreachable (p1 p2 raw : Nat) :
    either_player_in_hitstop p1 p2 = true ∧
    tickIntensity ⟨raw, either_player_in_hitstop p1 p2⟩ =
      hitstop_to_vibe_intensity ((raw / 2 : Nat) : ℚ) := by
  have h1 : (p1 ||| 1) ≠ 0 := by
    intro h
    have h0 := congrArg (fun n => n.testBit 0) h
    simp [Nat.testBit_or] at h0
  have he : either_player_in_hitstop p1 p2 = true := by
    simp [either_player_in_hitstop, h1]
  refine ⟨he, ?_⟩
  simp [tickIntensity, he]

end AcprButtplug
